import Mathlib

/-!
Shallow embedding of the frame-relay pipeline of pylibssp
(src/example/dump_h26x.py, src/example/preview.py, src/example/example.py),
together with theorems checking the design specification against it.

Byte strings are lists of byte values; file contents are the bytes flushed
to disk so far; each Python thread's effect is modelled by explicit state
transitions, and producer/worker interleavings by traces of steps.
-/

/-- Byte strings: a frame payload is a list of byte values. -/
abbrev Bytes := List Nat

/-- Model of Python `queue.Queue(maxsize).put(item, timeout)` taken while the
consumer is stalled for the whole timeout: `maxsize = 0` means the queue is
unbounded and the put always succeeds; otherwise the put succeeds exactly when
the queue is not yet full, and `none` models `queue.Full` being raised after
the timeout. -/
def queuePut (maxsize : Nat) (q : List α) (item : α) : Option (List α) :=
  if maxsize = 0 ∨ q.length < maxsize then some (q ++ [item]) else none

/-- Outcome of `Dumph26x.write_frame`: the source either enqueues the frame,
drops it on `queue.Full`, or drops it because the writer is not running. -/
inductive SubmitOutcome
  | queued
  | dropped_full
  | dropped_not_running
  deriving DecidableEq

/-- State of a `Dumph26x` stream writer (src/example/dump_h26x.py) together
with its worker thread and its sink file.  `frame_queue` is the contents of
`self.frame_queue` (created as `queue.Queue()`, i.e. with no maxsize);
`file_open` says whether `self.file_handle` is an open handle; `disk` is the
byte content of the sink file (the worker flushes after every write);
`frames_written` and `remaining_frames` are the worker's two counters, and
`io_err` records a worker-terminating I/O exception. -/
structure Dumph26x where
  frame_queue : List Bytes
  stop_event : Bool
  is_running : Bool
  file_open : Bool
  disk : Bytes
  frames_written : Nat
  remaining_frames : Nat
  io_err : Bool
  deriving DecidableEq

namespace Dumph26x

/-- `Dumph26x.__init__`: empty unbounded queue, cleared stop event, not
running, no open file. -/
def init : Dumph26x :=
  { frame_queue := [], stop_event := false, is_running := false,
    file_open := false, disk := [], frames_written := 0,
    remaining_frames := 0, io_err := false }

/-- `Dumph26x.start`: a no-op when already running, otherwise it launches the
worker thread and marks the writer running.  Faithful to the source, it does
not clear `stop_event` and performs no file operation itself. -/
def start (s : Dumph26x) : Dumph26x :=
  if s.is_running then s else { s with is_running := true }

/-- `Dumph26x.write_frame`: when running, `put` the frame with a 10 s timeout
(`queue.Full` would drop it); when not running, drop it with a warning. -/
def write_frame (s : Dumph26x) (d : Bytes) : Dumph26x × SubmitOutcome :=
  if s.is_running then
    match queuePut 0 s.frame_queue d with
    | some q => ({ s with frame_queue := q }, SubmitOutcome.queued)
    | none => (s, SubmitOutcome.dropped_full)
  else (s, SubmitOutcome.dropped_not_running)

/-- The worker's opening step (`open(self.file_path, 'wb')` at the top of
`_dump_worker`): on success the sink is opened and truncated; on failure the
exception is caught by the worker's `except` clause (logged) and the worker
terminates without a loop iteration. -/
def worker_open (openOk : Bool) (s : Dumph26x) : Dumph26x :=
  if openOk then { s with file_open := true, disk := [] }
  else { s with io_err := true }

/-- One iteration of the worker's main loop: if `stop_event` is set the loop
is left; otherwise `get(timeout=0.1)` either times out (`queue.Empty`,
continue) or yields the oldest frame, which is written and flushed and
counted. -/
def worker_loop_iter (s : Dumph26x) : Dumph26x :=
  if s.stop_event then s
  else
    match s.frame_queue with
    | [] => s
    | d :: rest =>
      if s.file_open then
        { s with frame_queue := rest, disk := s.disk ++ d,
                 frames_written := s.frames_written + 1 }
      else { s with io_err := true }

/-- The drain loop after the main loop exits: `get_nowait` each remaining
frame and write it, counting in `remaining_frames`; returns the final disk
content and counter. -/
def drain_go (disk : Bytes) (n : Nat) : List Bytes → Bytes × Nat
  | [] => (disk, n)
  | d :: rest => drain_go (disk ++ d) (n + 1) rest

/-- The worker's post-loop phase: write every frame still queued to the sink.
If the file were not open the write would raise and terminate the worker. -/
def worker_drain (s : Dumph26x) : Dumph26x :=
  if s.file_open then
    let r := drain_go s.disk s.remaining_frames s.frame_queue
    { s with frame_queue := [], disk := r.1, remaining_frames := r.2 }
  else { s with io_err := true }

/-- The worker's `finally` clause: close the sink handle. -/
def worker_close (s : Dumph26x) : Dumph26x :=
  { s with file_open := false }

/-- `Dumph26x.stop` on a clean stop, i.e. with the worker alive and the join
succeeding within its 10 s timeout: the stop event is set, the worker leaves
its wait loop, drains the queue, closes the file, and the join returns, after
which `is_running` is cleared.  When not running, `stop` is a no-op. -/
def clean_stop (s : Dumph26x) : Dumph26x :=
  if s.is_running then
    { worker_close (worker_drain { s with stop_event := true }) with
        is_running := false }
  else s

/-- Interleaved events while the writer runs: a producer call to
`write_frame`, or one worker main-loop iteration. -/
inductive WriterOp
  | submit (d : Bytes)
  | worker_iter
  deriving DecidableEq

/-- Effect of one interleaved event on the writer state. -/
def writer_step (s : Dumph26x) (op : WriterOp) : Dumph26x :=
  match op with
  | WriterOp.submit d => (write_frame s d).1
  | WriterOp.worker_iter => worker_loop_iter s

/-- Run an interleaved trace of producer and worker events. -/
def writer_run (s : Dumph26x) (t : List WriterOp) : Dumph26x :=
  t.foldl writer_step s

/-- The payloads submitted along a trace, in submission order. -/
def submits : List WriterOp → List Bytes
  | [] => []
  | WriterOp.submit d :: t => d :: submits t
  | WriterOp.worker_iter :: t => submits t

/-- A freshly started writer whose worker has opened the sink. -/
def started : Dumph26x := worker_open true (start init)

/-- The count the worker reports at the end
(`Total frames written: frames_written + remaining_frames`). -/
def total_written (s : Dumph26x) : Nat :=
  s.frames_written + s.remaining_frames

/-- Repeated submission of the same payload with the worker never popping. -/
def submit_many (s : Dumph26x) (d : Bytes) : Nat → Dumph26x
  | 0 => s
  | n + 1 => (write_frame (submit_many s d n) d).1

end Dumph26x

namespace Dumph26x

/-- The drain loop writes the queued frames in order and counts them. -/
lemma drain_go_spec (disk : Bytes) (n : Nat) (q : List Bytes) :
    drain_go disk n q = (disk ++ q.flatten, n + q.length) := by
  induction q generalizing disk n with
  | nil => simp [drain_go]
  | cons d rest ih => simp [drain_go, ih, List.append_assoc]; omega

/-- Effect of a clean stop on a running writer with an open sink: the stop
event is set, every queued frame is appended to the sink in order while the
sink is still open, the drain counter accounts for them, and only then is the
file closed and the writer marked not running. -/
lemma clean_stop_spec (s : Dumph26x) (hr : s.is_running = true)
    (ho : s.file_open = true) :
    (clean_stop s).disk = s.disk ++ s.frame_queue.flatten ∧
    (clean_stop s).frame_queue = [] ∧
    (clean_stop s).remaining_frames
      = s.remaining_frames + s.frame_queue.length ∧
    (clean_stop s).frames_written = s.frames_written ∧
    (clean_stop s).file_open = false ∧
    (clean_stop s).is_running = false ∧
    (worker_drain { s with stop_event := true }).file_open = true := by
  simp [clean_stop, worker_close, worker_drain, drain_go_spec, hr, ho]

/-- Unfolding `writer_run` on an empty trace. -/
lemma writer_run_nil (s : Dumph26x) : writer_run s [] = s := rfl

/-- Unfolding `writer_run` on a trace step. -/
lemma writer_run_cons (s : Dumph26x) (op : WriterOp) (t : List WriterOp) :
    writer_run s (op :: t) = writer_run (writer_step s op) t := rfl

/-- Invariant of the running phase: any interleaving of submissions and
worker iterations keeps the writer running with the sink open, and preserves
"bytes on disk followed by bytes still queued = bytes submitted so far" and
the corresponding frame count. -/
lemma writer_run_inv (t : List WriterOp) (s : Dumph26x)
    (hr : s.is_running = true) (he : s.stop_event = false)
    (ho : s.file_open = true) :
    (writer_run s t).is_running = true ∧
    (writer_run s t).stop_event = false ∧
    (writer_run s t).file_open = true ∧
    (writer_run s t).remaining_frames = s.remaining_frames ∧
    (writer_run s t).disk ++ (writer_run s t).frame_queue.flatten
      = s.disk ++ (s.frame_queue.flatten ++ (submits t).flatten) ∧
    (writer_run s t).frames_written + (writer_run s t).frame_queue.length
      = s.frames_written + (s.frame_queue.length + (submits t).length) := by
  induction t generalizing s with
  | nil => simpa [writer_run_nil, submits] using ⟨hr, he, ho⟩
  | cons op t ih =>
    cases op with
    | submit d =>
      have hs1 : writer_step s (WriterOp.submit d)
          = { s with frame_queue := s.frame_queue ++ [d] } := by
        simp [writer_step, write_frame, queuePut, hr]
      have ih2 := ih { s with frame_queue := s.frame_queue ++ [d] } hr he ho
      rw [writer_run_cons, hs1]
      refine ⟨ih2.1, ih2.2.1, ih2.2.2.1, ih2.2.2.2.1, ?_, ?_⟩
      · rw [ih2.2.2.2.2.1]
        simp [submits, List.append_assoc]
      · rw [ih2.2.2.2.2.2]
        simp [submits]
        omega
    | worker_iter =>
      cases hq : s.frame_queue with
      | nil =>
        have hs1 : writer_step s WriterOp.worker_iter = s := by
          simp [writer_step, worker_loop_iter, he, hq]
        rw [writer_run_cons, hs1]
        have ih2 := ih s hr he ho
        refine ⟨ih2.1, ih2.2.1, ih2.2.2.1, ih2.2.2.2.1, ?_, ?_⟩
        · rw [ih2.2.2.2.2.1]; simp [submits, hq]
        · rw [ih2.2.2.2.2.2]; simp [submits, hq]
      | cons d rest =>
        have hs1 : writer_step s WriterOp.worker_iter
            = { s with frame_queue := rest, disk := s.disk ++ d,
                       frames_written := s.frames_written + 1 } := by
          simp [writer_step, worker_loop_iter, he, hq, ho]
        have ih2 := ih { s with frame_queue := rest, disk := s.disk ++ d,
                                frames_written := s.frames_written + 1 }
          hr he ho
        rw [writer_run_cons, hs1]
        refine ⟨ih2.1, ih2.2.1, ih2.2.2.1, ih2.2.2.2.1, ?_, ?_⟩
        · rw [ih2.2.2.2.2.1]
          simp [hq, submits, List.append_assoc]
        · rw [ih2.2.2.2.2.2]
          simp [hq, submits]
          omega

/-- The freshly started writer, explicitly. -/
lemma started_eq :
    started = { frame_queue := [], stop_event := false, is_running := true,
                file_open := true, disk := [], frames_written := 0,
                remaining_frames := 0, io_err := false } := by
  simp [started, worker_open, start, init]

end Dumph26x

namespace Dumph26x

/-- The first test frame of dump_h26x.py's own main block (25 bytes). -/
def frameA : Bytes :=
  [0x00, 0x00, 0x00, 0x01, 0x67, 0x42, 0x00, 0x1E, 0x9A, 0x74, 0x02, 0x80,
   0x2D, 0xC8, 0x00, 0x00, 0x03, 0x00, 0x02, 0x00, 0x00, 0x03, 0x00, 0x65,
   0x08]

/-- The second test frame (8 bytes). -/
def frameB : Bytes := [0x00, 0x00, 0x00, 0x01, 0x68, 0xCE, 0x3C, 0x80]

/-- The third test frame (19 bytes). -/
def frameC : Bytes :=
  [0x00, 0x00, 0x00, 0x01, 0x65, 0x88, 0x80, 0x14, 0x00, 0x00, 0x03, 0x00,
   0x02, 0x00, 0x00, 0x03, 0x00, 0x65, 0x08]

/-- A demo trace submitting the three test frames, with two worker
iterations interleaved. -/
def demo_trace : List WriterOp :=
  [WriterOp.submit frameA, WriterOp.worker_iter, WriterOp.submit frameB,
   WriterOp.submit frameC, WriterOp.worker_iter]

/-- With the writer running, repeated submissions are all enqueued: the queue
length equals the number of submissions and the writer stays running. -/
lemma submit_many_queue (d : Bytes) (n : Nat) :
    (submit_many started d n).frame_queue.length = n ∧
    (submit_many started d n).is_running = true := by
  induction n with
  | zero => constructor <;> simp [submit_many, started_eq]
  | succ n ih =>
    obtain ⟨h1, h2⟩ := ih
    constructor
    · simp [submit_many, write_frame, queuePut, h2, h1]
    · simp [submit_many, write_frame, queuePut, h2]

/-- A mid-run writer state: frameA already flushed, frameB and frameC still
queued. -/
def drain_demo : Dumph26x :=
  { frame_queue := [frameB, frameC], stop_event := false, is_running := true,
    file_open := true, disk := frameA, frames_written := 1,
    remaining_frames := 0, io_err := false }

/-- The restart scenario behind claim C4: a first clean cycle writes frameA;
the writer is started again (the source's `start` does not clear
`stop_event`), the new worker opens (truncates) the sink, immediately
observes the stale stop event, drains the then-empty queue and closes the
file; frameB is then submitted (accepted, since `is_running` is true) and
the final `stop` merely joins the already-dead worker. -/
def restart_scenario : Dumph26x :=
  let cycle1 := clean_stop (writer_run started
    [WriterOp.submit frameA, WriterOp.worker_iter])
  let s2 := worker_open true (start cycle1)
  let s3 := worker_close (worker_drain (worker_loop_iter s2))
  let s4 := (write_frame s3 frameB).1
  { s4 with stop_event := true, is_running := false }

end Dumph26x

/-- Claim C1: for every trace of frame submissions to a started Dumph26x,
arbitrarily interleaved with worker iterations, with no overload and the
consumer not stalled (the clean stop's drain and join complete), the sink
file afterwards contains exactly the concatenation of the submitted payloads
in submission order, and the reported written-count equals their number. -/
theorem writer_sink_complete (t : List Dumph26x.WriterOp) (ds : List Bytes)
    (h : Dumph26x.submits t = ds) :
    (Dumph26x.clean_stop (Dumph26x.writer_run Dumph26x.started t)).disk
      = ds.flatten ∧
    Dumph26x.total_written
      (Dumph26x.clean_stop (Dumph26x.writer_run Dumph26x.started t))
      = ds.length := by
  subst h
  obtain ⟨h1, h2, h3, h4, h5, h6⟩ :=
    Dumph26x.writer_run_inv t Dumph26x.started (by decide) (by decide)
      (by decide)
  obtain ⟨c1, c2, c3, c4, c5, c6, c7⟩ :=
    Dumph26x.clean_stop_spec _ h1 h3
  have e1 : Dumph26x.started.disk = [] := rfl
  have e2 : Dumph26x.started.frame_queue = [] := rfl
  have e3 : Dumph26x.started.frames_written = 0 := rfl
  have e4 : Dumph26x.started.remaining_frames = 0 := rfl
  rw [e1, e2] at h5
  rw [e2, e3] at h6
  rw [e4] at h4
  simp at h5 h6
  constructor
  · rw [c1, h5]
  · unfold Dumph26x.total_written
    rw [c3, c4]
    omega

/-- Witness for C1 at the repository's own three test frames, of sizes 25, 8
and 19 bytes: a 52-byte sink equal to their in-order concatenation and a
final count of 3. -/
theorem writer_sink_complete_witness :
    Dumph26x.submits Dumph26x.demo_trace
      = [Dumph26x.frameA, Dumph26x.frameB, Dumph26x.frameC] ∧
    (Dumph26x.clean_stop
        (Dumph26x.writer_run Dumph26x.started Dumph26x.demo_trace)).disk
      = Dumph26x.frameA ++ Dumph26x.frameB ++ Dumph26x.frameC ∧
    Dumph26x.total_written
      (Dumph26x.clean_stop
        (Dumph26x.writer_run Dumph26x.started Dumph26x.demo_trace)) = 3 ∧
    (Dumph26x.frameA ++ Dumph26x.frameB ++ Dumph26x.frameC).length = 52 := by
  have h := writer_sink_complete Dumph26x.demo_trace
    [Dumph26x.frameA, Dumph26x.frameB, Dumph26x.frameC] (by decide)
  refine ⟨by decide, ?_, h.2, by decide⟩
  rw [h.1]
  decide

/-- Counterexample to claim C2 as stated: the Dumph26x frame queue has no
capacity fixed at construction — for every candidate bound C, C + 1
submissions to the running writer leave C + 1 frames queued. -/
theorem writer_no_capacity_bound :
    ¬ ∃ C : Nat, ∀ n : Nat,
      (Dumph26x.submit_many Dumph26x.started [0] n).frame_queue.length
        ≤ C := by
  rintro ⟨C, h⟩
  have h2 := h (C + 1)
  rw [(Dumph26x.submit_many_queue [0] (C + 1)).1] at h2
  omega

/-- Claim C2 (amended): the Dumph26x frame queue is created without a
capacity bound (`queue.Queue()`), so while the writer runs every submission
is enqueued — `queue.Full` never drops one — and under sustained submission
with the worker never popping, the queue length equals the number of
submissions, growing without bound. -/
theorem writer_queue_unbounded (s : Dumph26x) (d : Bytes) (n : Nat)
    (h : s.is_running = true) :
    (Dumph26x.write_frame s d).2 = SubmitOutcome.queued ∧
    (Dumph26x.submit_many Dumph26x.started d n).frame_queue.length = n := by
  constructor
  · simp [Dumph26x.write_frame, queuePut, h]
  · exact (Dumph26x.submit_many_queue d n).1

/-- Witness for the amended C2: the started writer accepts a submission, and
four back-to-back submissions leave four frames queued. -/
theorem writer_queue_unbounded_witness :
    Dumph26x.started.is_running = true ∧
    (Dumph26x.write_frame Dumph26x.started [0]).2 = SubmitOutcome.queued ∧
    (Dumph26x.submit_many Dumph26x.started [0] 4).frame_queue.length = 4 := by
  have h := writer_queue_unbounded Dumph26x.started [0] 4 (by decide)
  exact ⟨by decide, h.1, h.2⟩

/-- Claim C3: on a clean stop of a running writer with an open sink, the
worker appends every frame still queued to the sink, in FIFO order and while
the file is still open, counts them in `remaining_frames`, and only then
closes the file — no frame enqueued before the stop signal is lost. -/
theorem writer_drain_on_stop (s : Dumph26x) (hr : s.is_running = true)
    (ho : s.file_open = true) :
    (Dumph26x.clean_stop s).disk = s.disk ++ s.frame_queue.flatten ∧
    (Dumph26x.clean_stop s).frame_queue = [] ∧
    (Dumph26x.clean_stop s).remaining_frames
      = s.remaining_frames + s.frame_queue.length ∧
    (Dumph26x.worker_drain { s with stop_event := true }).file_open = true ∧
    (Dumph26x.clean_stop s).file_open = false := by
  obtain ⟨c1, c2, c3, _, c5, _, c7⟩ := Dumph26x.clean_stop_spec s hr ho
  exact ⟨c1, c2, c3, c7, c5⟩

/-- Witness for C3 at a concrete mid-run state with two frames queued. -/
theorem writer_drain_on_stop_witness :
    (Dumph26x.clean_stop Dumph26x.drain_demo).disk
      = Dumph26x.drain_demo.disk ++ Dumph26x.drain_demo.frame_queue.flatten ∧
    (Dumph26x.clean_stop Dumph26x.drain_demo).frame_queue = [] ∧
    (Dumph26x.clean_stop Dumph26x.drain_demo).remaining_frames
      = Dumph26x.drain_demo.remaining_frames
        + Dumph26x.drain_demo.frame_queue.length ∧
    (Dumph26x.worker_drain
        { Dumph26x.drain_demo with stop_event := true }).file_open = true ∧
    (Dumph26x.clean_stop Dumph26x.drain_demo).file_open = false :=
  writer_drain_on_stop Dumph26x.drain_demo (by decide) (by decide)

/-- Claim C4 fails on the source: `Dumph26x.start` does not clear
`stop_event` (its sibling `DecodeH26x.start` does), so after a clean first
cycle that wrote frameA, the restarted cycle's worker sees the stale stop
event and exits at once; a frame submitted during the second cycle is
accepted into the queue but never written — the second cycle's sink stays
empty. -/
theorem writer_restart_loses_frames :
    (Dumph26x.clean_stop (Dumph26x.writer_run Dumph26x.started
        [Dumph26x.WriterOp.submit Dumph26x.frameA,
         Dumph26x.WriterOp.worker_iter])).disk = Dumph26x.frameA ∧
    (Dumph26x.start (Dumph26x.clean_stop (Dumph26x.writer_run Dumph26x.started
        [Dumph26x.WriterOp.submit Dumph26x.frameA,
         Dumph26x.WriterOp.worker_iter]))).stop_event = true ∧
    Dumph26x.restart_scenario.disk = [] ∧
    Dumph26x.restart_scenario.frame_queue = [Dumph26x.frameB] :=
  ⟨by decide, by decide, by decide, by decide⟩

/-- Counterexample to claim C5: `start` returns with the sink still unopened
and with no error indication, and when the worker's open subsequently fails
the writer is still marked running — the worker did launch, and nothing was
reported synchronously to the caller of `start`. -/
theorem writer_start_does_not_open_cx :
    (Dumph26x.start Dumph26x.init).file_open = false ∧
    (Dumph26x.start Dumph26x.init).io_err = false ∧
    (Dumph26x.worker_open false (Dumph26x.start Dumph26x.init)).is_running
      = true ∧
    (Dumph26x.worker_open false (Dumph26x.start Dumph26x.init)).file_open
      = false :=
  ⟨by decide, by decide, by decide, by decide⟩

/-- Claim C5 (amended): `start` performs no file operation — it only marks
the writer running and launches the worker — and the sink is opened
(truncated) by the worker after `start` has returned; an open failure is
absorbed inside the worker (logged), leaving the sink closed, and is never
surfaced to the caller of `start`, which still observes a running writer. -/
theorem writer_open_in_worker (s : Dumph26x) (h : s.is_running = false) :
    (Dumph26x.start s).file_open = s.file_open ∧
    (Dumph26x.start s).disk = s.disk ∧
    (Dumph26x.start s).is_running = true ∧
    (Dumph26x.worker_open true (Dumph26x.start s)).file_open = true ∧
    (Dumph26x.worker_open true (Dumph26x.start s)).disk = [] ∧
    (Dumph26x.worker_open false (Dumph26x.start s)).file_open = s.file_open ∧
    (Dumph26x.worker_open false (Dumph26x.start s)).is_running = true := by
  simp [Dumph26x.start, Dumph26x.worker_open, h]

/-- Witness for the amended C5 at the freshly constructed writer. -/
theorem writer_open_in_worker_witness :
    (Dumph26x.start Dumph26x.init).file_open = Dumph26x.init.file_open ∧
    (Dumph26x.start Dumph26x.init).disk = Dumph26x.init.disk ∧
    (Dumph26x.start Dumph26x.init).is_running = true ∧
    (Dumph26x.worker_open true (Dumph26x.start Dumph26x.init)).file_open
      = true ∧
    (Dumph26x.worker_open true (Dumph26x.start Dumph26x.init)).disk = [] ∧
    (Dumph26x.worker_open false (Dumph26x.start Dumph26x.init)).file_open
      = Dumph26x.init.file_open ∧
    (Dumph26x.worker_open false (Dumph26x.start Dumph26x.init)).is_running
      = true :=
  writer_open_in_worker Dumph26x.init (by decide)

/-- Compression formats that `DecodeH26x._init_codec` may try (the av codec
names passed to `av.CodecContext.create`). -/
inductive CodecKind
  | h264
  | hevc
  deriving DecidableEq

/-- Which of the two `av.CodecContext.create` calls would succeed in the
ambient environment: the test double for format availability. -/
structure CodecEnv where
  h264_ok : Bool
  hevc_ok : Bool
  deriving DecidableEq

/-- The formats `_init_codec` attempts, in order: h264 first, and hevc only
when the h264 create raises. -/
def init_codec_attempts (e : CodecEnv) : List CodecKind :=
  if e.h264_ok then [CodecKind.h264] else [CodecKind.h264, CodecKind.hevc]

/-- The codec `_init_codec` ends up holding: h264 when available, otherwise
hevc when available, otherwise the exception propagates (`none`). -/
def init_codec (e : CodecEnv) : Option CodecKind :=
  if e.h264_ok then some CodecKind.h264
  else if e.hevc_ok then some CodecKind.hevc
  else none

/-- State of a `DecodeH26x` decoder (src/example/preview.py): the codec fixed
by `_init_codec`, the run flag and stop event, and the input queue with its
maxsize (constructor default 30) — each entry a `(frame_type,
frame_raw_data)` pair as built by `push_frame`. -/
structure DecodeH26x where
  codec : Option CodecKind
  running : Bool
  stop_event : Bool
  maxsize : Nat
  frame_queue : List (String × Bytes)
  deriving DecidableEq

namespace DecodeH26x

/-- `DecodeH26x.__init__(queue_size)`: creates the bounded queue and calls
`_init_codec`; when both create calls fail the constructor raises
(modelled as `none`). -/
def init (queue_size : Nat) (e : CodecEnv) : Option DecodeH26x :=
  match init_codec e with
  | some c =>
    some { codec := some c, running := false, stop_event := false,
           maxsize := queue_size, frame_queue := [] }
  | none => none

/-- `DecodeH26x.start`: a no-op when already running; otherwise it sets the
run flag, clears the stop event and launches the decode thread.  It makes no
`av.CodecContext.create` call — the codec stays exactly as constructed. -/
def start (s : DecodeH26x) : DecodeH26x :=
  if s.running then s else { s with running := true, stop_event := false }

/-- `DecodeH26x.push_frame`: drop (warn) when not running; otherwise `put`
the `(frame_type, frame_raw_data)` tuple with a 0.1 s timeout, dropping the
new frame when the queue stays full. -/
def push_frame (s : DecodeH26x) (frame_type : String)
    (frame_raw_data : Bytes) : DecodeH26x :=
  if s.running then
    match queuePut s.maxsize s.frame_queue (frame_type, frame_raw_data) with
    | some q => { s with frame_queue := q }
    | none => s
  else s

end DecodeH26x

/-- Folding `self.codec.decode(packet)` over the packets one `parse` call
returned, concatenating the decoded images in emission order (the two nested
for loops of `_decode_worker`). -/
def decode_packets {σ π ι : Type} (decode : σ → π → σ × List ι) :
    σ → List π → σ × List ι
  | cs, [] => (cs, [])
  | cs, p :: ps =>
    let r1 := decode cs p
    let r2 := decode_packets decode r1.1 ps
    (r2.1, r1.2 ++ r2.2)

/-- One `_decode_worker` iteration body on a dequeued `frame_info` tuple: it
unpacks `frame_type` and `frame_raw_data`, parses the raw data alone into
packets and decodes each packet; `frame_type` is bound but never read again.
The codec is abstract — any packet parser and any stateful per-packet
decoder instantiate `parse` and `decode`. -/
def decode_step {σ π ι : Type} (parse : σ → Bytes → σ × List π)
    (decode : σ → π → σ × List ι) (cs : σ) (frame_info : String × Bytes) :
    σ × List ι :=
  let _frame_type := frame_info.1
  let r1 := parse cs frame_info.2
  decode_packets decode r1.1 r1.2

/-- The decode worker consuming a sequence of queued tuples in FIFO order,
concatenating the images it emits. -/
def decode_run {σ π ι : Type} (parse : σ → Bytes → σ × List π)
    (decode : σ → π → σ × List ι) : σ → List (String × Bytes) → σ × List ι
  | cs, [] => (cs, [])
  | cs, item :: items =>
    let r1 := decode_step parse decode cs item
    let r2 := decode_run parse decode r1.1 items
    (r2.1, r1.2 ++ r2.2)

/-- The frame record the protocol client delivers to `on_h264_data`
(src/example/example.py), restricted to the fields the callback reads. -/
structure H26xData where
  frm_no : Nat
  pts : Int
  frame_type : String
  len : Nat
  data : Bytes
  ntp_timestamp : Nat
  deriving DecidableEq

/-- `on_h264_data`: when the dump writer exists and is running it receives
only the payload bytes (`data['data']`); when the preview widget exists it
receives the `(type, data)` pair. -/
def on_h264_data (dump_running : Bool) (has_preview : Bool) (d : H26xData) :
    Option Bytes × Option (String × Bytes) :=
  ((if dump_running then some d.data else none),
   (if has_preview then some (d.frame_type, d.data) else none))

/-- Display-side state of `PreviewH26xWnd` (src/example/preview.py): the
display worker flag, the display queue — created `queue.Queue(maxsize=3)` —
of decoded images (opaque ids), and a count of the images dropped on
`queue.Full` (the source logs a warning at each drop). -/
structure PreviewH26xWnd where
  display_running : Bool
  display_queue : List Nat
  dropped : Nat
  deriving DecidableEq

namespace PreviewH26xWnd

/-- The display queue capacity fixed at construction: `maxsize=3`. -/
def display_maxsize : Nat := 3

/-- `PreviewH26xWnd._on_frame_decoded`: ignore the image when the display is
not running; otherwise `put` it with a 0.1 s timeout, and on `queue.Full`
drop the newly pushed image with a warning. -/
def on_frame_decoded (s : PreviewH26xWnd) (img : Nat) : PreviewH26xWnd :=
  if s.display_running then
    match queuePut display_maxsize s.display_queue img with
    | some q => { s with display_queue := q }
    | none => { s with dropped := s.dropped + 1 }
  else s

/-- A burst of decoded images arriving with the display worker never
draining — the sustained-overload scenario. -/
def push_images (s : PreviewH26xWnd) : List Nat → PreviewH26xWnd
  | [] => s
  | i :: t => push_images (on_frame_decoded s i) t

/-- The preview right after `start`, with an empty display queue. -/
def started : PreviewH26xWnd :=
  { display_running := true, display_queue := [], dropped := 0 }

/-- Burst behaviour of the display queue: the queue length saturates at 3
and every image beyond the saturation point only bumps the drop count. -/
lemma push_images_spec (imgs : List Nat) (s : PreviewH26xWnd)
    (hr : s.display_running = true) (h3 : s.display_queue.length ≤ 3) :
    (push_images s imgs).display_running = true ∧
    (push_images s imgs).display_queue.length
      = min (s.display_queue.length + imgs.length) 3 ∧
    (push_images s imgs).dropped
      = s.dropped + (s.display_queue.length + imgs.length
          - min (s.display_queue.length + imgs.length) 3) := by
  induction imgs generalizing s with
  | nil =>
    refine ⟨hr, ?_, ?_⟩ <;> simp [push_images] <;> omega
  | cons i t ih =>
    by_cases hlt : s.display_queue.length < 3
    · have hstep : on_frame_decoded s i
          = { s with display_queue := s.display_queue ++ [i] } := by
        simp [on_frame_decoded, queuePut, display_maxsize, hr, hlt]
      have ih2 := ih { s with display_queue := s.display_queue ++ [i] } hr
        (by simp; omega)
      simp only [push_images, hstep]
      obtain ⟨a1, a2, a3⟩ := ih2
      refine ⟨a1, ?_, ?_⟩
      · rw [a2]; simp; omega
      · rw [a3]; simp; omega
    · have h3eq : s.display_queue.length = 3 := by omega
      have hstep : on_frame_decoded s i
          = { s with dropped := s.dropped + 1 } := by
        simp [on_frame_decoded, queuePut, display_maxsize, hr, hlt]
      have ih2 := ih { s with dropped := s.dropped + 1 } hr h3
      simp only [push_images, hstep]
      obtain ⟨a1, a2, a3⟩ := ih2
      refine ⟨a1, ?_, ?_⟩
      · rw [a2]; simp; omega
      · rw [a3]; simp; omega

end PreviewH26xWnd

/-- An HTTP GET as issued by `requests.get`: its URL and timeout seconds. -/
structure HttpRequest where
  url : String
  timeout : Nat
  deriving DecidableEq

/-- The fields of the stream-settings JSON body that drive control flow in
the source (the remaining fields are only printed). -/
structure QueryBody where
  status : Option String
  encoderType : Option String
  deriving DecidableEq

/-- A stream-settings GET as observed through the exception handlers of
`query_stream_settings`: a JSON body, a `requests` RequestException (from
the transport or `raise_for_status`), an invalid JSON body, or any other
exception. -/
inductive QueryOutcome
  | ok (body : QueryBody)
  | req_error (msg : String)
  | bad_json
  | other_error (msg : String)
  deriving DecidableEq

/-- Render an optional string the way Python interpolates `result.get(...)`
into an f-string (`None` when absent). -/
def option_str : Option String → String
  | some s => s
  | none => "None"

/-- Render an optional integer the same way. -/
def option_int_str : Option Int → String
  | some i => toString i
  | none => "None"

/-- The URL `query_stream_settings` builds. -/
def query_url (ip : String) (stream_index : Nat) : String :=
  "http://" ++ ip ++ "/ctrl/stream_setting?index=stream"
    ++ toString stream_index ++ "&action=query"

/-- `query_stream_settings` (src/example/example.py): issues one GET with a
5 s timeout and no retry, succeeds exactly when the JSON `status` field is
"idle", and reports every failure as a `(False, ..., message)` tuple.  The
transport is a parameter; the second component of the result records the
requests issued. -/
def query_stream_settings (http : HttpRequest → QueryOutcome) (ip : String)
    (stream_index : Nat) :
    (Bool × Option QueryBody × String) × List HttpRequest :=
  let req : HttpRequest := { url := query_url ip stream_index, timeout := 5 }
  match http req with
  | QueryOutcome.ok body =>
    if body.status = some "idle" then ((true, some body, ""), [req])
    else ((false, some body,
      "Stream is not idle, current status: " ++ option_str body.status),
      [req])
  | QueryOutcome.req_error m =>
    ((false, none, "HTTP request failed: " ++ m), [req])
  | QueryOutcome.bad_json =>
    ((false, none, "Invalid JSON response"), [req])
  | QueryOutcome.other_error m =>
    ((false, none, "Unexpected error: " ++ m), [req])

/-- The fields of the set-stream JSON body the source reads. -/
structure SetBody where
  code : Option Int
  msg : Option String
  deriving DecidableEq

/-- A set-stream GET as observed through the exception handlers of
`sent_stream_index`. -/
inductive SetOutcome
  | ok (body : SetBody)
  | req_error (msg : String)
  | bad_json
  | other_error (msg : String)
  deriving DecidableEq

/-- The URL `sent_stream_index` builds. -/
def set_url (ip : String) (stream_index : Nat) : String :=
  "http://" ++ ip ++ "/ctrl/set?send_stream=Stream" ++ toString stream_index

/-- `sent_stream_index` (src/example/example.py): one GET with a 5 s
timeout, success exactly when the JSON `code` field is 0, every failure a
`(False, message)` tuple. -/
def sent_stream_index (http : HttpRequest → SetOutcome) (ip : String)
    (stream_index : Nat) : (Bool × String) × List HttpRequest :=
  let req : HttpRequest := { url := set_url ip stream_index, timeout := 5 }
  match http req with
  | SetOutcome.ok body =>
    if body.code = some 0 then ((true, ""), [req])
    else ((false, "Error code: " ++ option_int_str body.code
        ++ ", message: " ++ option_str body.msg), [req])
  | SetOutcome.req_error m => ((false, "HTTP request failed: " ++ m), [req])
  | SetOutcome.bad_json => ((false, "Invalid JSON response"), [req])
  | SetOutcome.other_error m => ((false, "Unexpected error: " ++ m), [req])

/-- A string that extends a nonempty prefix is nonempty. -/
lemma append_ne_empty_left (a b : String) (h : a.data ≠ []) :
    a ++ b ≠ "" := by
  intro hc
  have h2 : (a ++ b).data = ("" : String).data := by rw [hc]
  rw [String.data_append] at h2
  simp at h2
  exact h h2.1

/-- Counterexample to claim C6 as stated: with the primary format failing
and the secondary available, the decoder object already holds the hevc
codec at construction, before any call to `start` (`running = false`), and
`start` performs no codec attempt — it leaves the codec field untouched,
even on a codec-less state. -/
theorem decoder_codec_fixed_before_start_cx :
    DecodeH26x.init 30 { h264_ok := false, hevc_ok := true }
      = some { codec := some CodecKind.hevc, running := false,
               stop_event := false, maxsize := 30, frame_queue := [] } ∧
    (DecodeH26x.start
        { codec := some CodecKind.hevc, running := false,
          stop_event := false, maxsize := 30, frame_queue := [] }).codec
      = some CodecKind.hevc ∧
    (DecodeH26x.start
        { codec := none, running := false, stop_event := false,
          maxsize := 30, frame_queue := [] }).codec = none :=
  ⟨by decide, by decide, by decide⟩

/-- Claim C6 (amended): at DecodeH26x construction time (`_init_codec`,
called from `__init__`), h264 is attempted first and hevc only when the
h264 create fails; both are attempted at most once, in that order; the
first success fixes the codec for the lifetime of the object (`start` never
changes it), and when h264 fails but hevc initializes, construction
succeeds holding the hevc codec and the subsequent `start` succeeds using
it. -/
theorem decoder_fallback_order (e : CodecEnv) (q : Nat) (s : DecodeH26x) :
    (init_codec_attempts e).head? = some CodecKind.h264 ∧
    (CodecKind.hevc ∈ init_codec_attempts e ↔ e.h264_ok = false) ∧
    (init_codec_attempts e).Nodup ∧
    (init_codec e = some CodecKind.h264 ↔ e.h264_ok = true) ∧
    (e.h264_ok = false → e.hevc_ok = true →
      DecodeH26x.init q e
        = some { codec := some CodecKind.hevc, running := false,
                 stop_event := false, maxsize := q, frame_queue := [] }) ∧
    (DecodeH26x.start s).codec = s.codec ∧
    (s.running = false → (DecodeH26x.start s).running = true) := by
  rcases e with ⟨h1, h2⟩
  refine ⟨?_, ?_, ?_, ?_, ?_, ?_, ?_⟩
  · cases h1 <;> cases h2 <;> decide
  · cases h1 <;> cases h2 <;> decide
  · cases h1 <;> cases h2 <;> decide
  · cases h1 <;> cases h2 <;> decide
  · intro ha hb
    simp at ha hb
    subst ha
    subst hb
    rfl
  · by_cases hr : s.running <;> simp [DecodeH26x.start, hr]
  · intro hrf
    simp [DecodeH26x.start, hrf]

/-- Witness for the amended C6 with h264 failing and hevc available. -/
theorem decoder_fallback_order_witness :
    (init_codec_attempts { h264_ok := false, hevc_ok := true }).head?
      = some CodecKind.h264 ∧
    CodecKind.hevc ∈ init_codec_attempts { h264_ok := false, hevc_ok := true } ∧
    DecodeH26x.init 30 { h264_ok := false, hevc_ok := true }
      = some { codec := some CodecKind.hevc, running := false,
               stop_event := false, maxsize := 30, frame_queue := [] } ∧
    (DecodeH26x.start
        { codec := some CodecKind.hevc, running := false, stop_event := false,
          maxsize := 30, frame_queue := [] }).running = true := by
  have h := decoder_fallback_order { h264_ok := false, hevc_ok := true } 30
    { codec := some CodecKind.hevc, running := false, stop_event := false,
      maxsize := 30, frame_queue := [] }
  exact ⟨h.1, (h.2.1).mpr rfl, h.2.2.2.2.1 rfl rfl, h.2.2.2.2.2.2 rfl⟩

/-- A display state with three images queued, for the C7 witness. -/
def preview_demo : PreviewH26xWnd :=
  { display_running := true, display_queue := [7, 8, 9], dropped := 0 }

/-- Counterexample to claim C7 as stated: two images pushed into the started
display sink with no drain are both retained at once (the display queue's
maxsize is 3, not 1) and neither push drops anything. -/
theorem display_retains_two_cx :
    (PreviewH26xWnd.push_images PreviewH26xWnd.started [1, 2]).display_queue
      = [1, 2] ∧
    (PreviewH26xWnd.push_images PreviewH26xWnd.started
        [1, 2]).display_queue.length = 2 ∧
    (PreviewH26xWnd.push_images PreviewH26xWnd.started [1, 2]).dropped = 0 :=
  ⟨by decide, by decide, by decide⟩

/-- Claim C7 (amended): the display sink retains at most 3 decoded images
at a time (its queue's maxsize, fixed at construction); pushing while the
queue is full drops exactly the newly pushed image — the state changes only
by the drop count — and under sustained submission with the display worker
never draining, the queue length saturates at 3 while every image beyond
the third is dropped, each push returning without exception or unbounded
blocking. -/
theorem display_queue_bounded (s : PreviewH26xWnd) (imgs : List Nat)
    (img : Nat) (hr : s.display_running = true)
    (h3 : s.display_queue.length ≤ 3) :
    (PreviewH26xWnd.push_images s imgs).display_queue.length ≤ 3 ∧
    (s.display_queue.length = 3 →
      PreviewH26xWnd.on_frame_decoded s img
        = { s with dropped := s.dropped + 1 }) ∧
    (PreviewH26xWnd.push_images PreviewH26xWnd.started
        imgs).display_queue.length = min imgs.length 3 ∧
    (PreviewH26xWnd.push_images PreviewH26xWnd.started imgs).dropped
      = imgs.length - 3 := by
  obtain ⟨a1, a2, a3⟩ := PreviewH26xWnd.push_images_spec imgs s hr h3
  obtain ⟨b1, b2, b3⟩ := PreviewH26xWnd.push_images_spec imgs
    PreviewH26xWnd.started (by decide) (by decide)
  refine ⟨?_, ?_, ?_, ?_⟩
  · rw [a2]; omega
  · intro hfull
    simp [PreviewH26xWnd.on_frame_decoded, queuePut,
      PreviewH26xWnd.display_maxsize, hr, hfull]
  · rw [b2]; simp [PreviewH26xWnd.started]
  · rw [b3]; simp [PreviewH26xWnd.started]; omega

/-- Witness for the amended C7: a full queue of three images and a burst of
five images into the started sink, two of which are dropped. -/
theorem display_queue_bounded_witness :
    (PreviewH26xWnd.push_images preview_demo
        [1, 2, 3, 4, 5]).display_queue.length ≤ 3 ∧
    (preview_demo.display_queue.length = 3 →
      PreviewH26xWnd.on_frame_decoded preview_demo 6
        = { preview_demo with dropped := preview_demo.dropped + 1 }) ∧
    (PreviewH26xWnd.push_images PreviewH26xWnd.started
        [1, 2, 3, 4, 5]).display_queue.length
      = min ([1, 2, 3, 4, 5] : List Nat).length 3 ∧
    (PreviewH26xWnd.push_images PreviewH26xWnd.started [1, 2, 3, 4, 5]).dropped
      = ([1, 2, 3, 4, 5] : List Nat).length - 3 :=
  display_queue_bounded preview_demo [1, 2, 3, 4, 5] 6 (by decide) (by decide)

/-- Claim C8: the stream-settings query issues exactly one HTTP GET with a
fixed 5-second timeout (no retry), returns success exactly when the
response JSON's status field equals "idle", and surfaces every failure —
HTTP error, invalid JSON, non-idle status or any other exception — as a
nonempty human-readable message string in the returned tuple. -/
theorem query_fixed_timeout_idle_only (http : HttpRequest → QueryOutcome)
    (ip : String) (stream_index : Nat) :
    (query_stream_settings http ip stream_index).2
      = [{ url := query_url ip stream_index, timeout := 5 }] ∧
    ((query_stream_settings http ip stream_index).1.1 = true ↔
      ∃ body, http { url := query_url ip stream_index, timeout := 5 }
          = QueryOutcome.ok body ∧ body.status = some "idle") ∧
    ((query_stream_settings http ip stream_index).1.1 = false →
      (query_stream_settings http ip stream_index).1.2.2 ≠ "") := by
  cases hc : http { url := query_url ip stream_index, timeout := 5 } with
  | ok body =>
    by_cases hst : body.status = some "idle"
    · simp [query_stream_settings, hc, hst]
    · simp [query_stream_settings, hc, hst]
      exact append_ne_empty_left _ _ (by decide)
  | req_error m =>
    simp [query_stream_settings, hc]
    exact append_ne_empty_left _ _ (by decide)
  | bad_json =>
    simp [query_stream_settings, hc]
  | other_error m =>
    simp [query_stream_settings, hc]
    exact append_ne_empty_left _ _ (by decide)

/-- A canned transport answering every GET with an idle body, for the C8
and C9 witnesses. -/
def demo_http_idle : HttpRequest → QueryOutcome :=
  fun _ =>
    QueryOutcome.ok { status := some "idle", encoderType := some "h264" }

/-- Witness for C8 at the canned idle transport and the default camera
address. -/
theorem query_fixed_timeout_idle_only_witness :
    (query_stream_settings demo_http_idle "192.168.1.84" 1).2
      = [{ url := query_url "192.168.1.84" 1, timeout := 5 }] ∧
    ((query_stream_settings demo_http_idle "192.168.1.84" 1).1.1 = true ↔
      ∃ body, demo_http_idle { url := query_url "192.168.1.84" 1, timeout := 5 }
          = QueryOutcome.ok body ∧ body.status = some "idle") ∧
    ((query_stream_settings demo_http_idle "192.168.1.84" 1).1.1 = false →
      (query_stream_settings demo_http_idle "192.168.1.84" 1).1.2.2 ≠ "") :=
  query_fixed_timeout_idle_only demo_http_idle "192.168.1.84" 1

/-- Claim C9: for every modelled input — any transport outcome, including a
raised RequestException, a JSON decode failure, a non-idle status, a
non-zero response code or any other exception — `query_stream_settings` and
`sent_stream_index` return a result tuple (both are total functions of the
outcome, no exception reaches the caller) whose success flag is False with
a nonempty error-message string on every failure path, and True with an
empty message on success. -/
theorem helpers_return_message_tuples (hq : HttpRequest → QueryOutcome)
    (hs : HttpRequest → SetOutcome) (ip : String) (stream_index : Nat) :
    (((query_stream_settings hq ip stream_index).1.1 = true ∧
        (query_stream_settings hq ip stream_index).1.2.2 = "") ∨
      ((query_stream_settings hq ip stream_index).1.1 = false ∧
        (query_stream_settings hq ip stream_index).1.2.2 ≠ "")) ∧
    (((sent_stream_index hs ip stream_index).1.1 = true ∧
        (sent_stream_index hs ip stream_index).1.2 = "") ∨
      ((sent_stream_index hs ip stream_index).1.1 = false ∧
        (sent_stream_index hs ip stream_index).1.2 ≠ "")) := by
  constructor
  · cases hc : hq { url := query_url ip stream_index, timeout := 5 } with
    | ok body =>
      by_cases hst : body.status = some "idle"
      · left
        simp [query_stream_settings, hc, hst]
      · right
        simp [query_stream_settings, hc, hst]
        exact append_ne_empty_left _ _ (by decide)
    | req_error m =>
      right
      simp [query_stream_settings, hc]
      exact append_ne_empty_left _ _ (by decide)
    | bad_json =>
      right
      simp [query_stream_settings, hc]
    | other_error m =>
      right
      simp [query_stream_settings, hc]
      exact append_ne_empty_left _ _ (by decide)
  · cases hc : hs { url := set_url ip stream_index, timeout := 5 } with
    | ok body =>
      by_cases hcode : body.code = some 0
      · left
        simp [sent_stream_index, hc, hcode]
      · right
        simp [sent_stream_index, hc, hcode]
        rw [String.append_assoc, String.append_assoc]
        exact append_ne_empty_left _ _ (by decide)
    | req_error m =>
      right
      simp [sent_stream_index, hc]
      exact append_ne_empty_left _ _ (by decide)
    | bad_json =>
      right
      simp [sent_stream_index, hc]
    | other_error m =>
      right
      simp [sent_stream_index, hc]
      exact append_ne_empty_left _ _ (by decide)

/-- A canned transport failing with a RequestException, for the C9
witness. -/
def demo_http_fail : HttpRequest → SetOutcome :=
  fun _ => SetOutcome.req_error "timeout"

/-- Witness for C9 at an idle query transport and a failing set
transport. -/
theorem helpers_return_message_tuples_witness :
    (((query_stream_settings demo_http_idle "192.168.1.84" 1).1.1 = true ∧
        (query_stream_settings demo_http_idle "192.168.1.84" 1).1.2.2 = "") ∨
      ((query_stream_settings demo_http_idle "192.168.1.84" 1).1.1 = false ∧
        (query_stream_settings demo_http_idle "192.168.1.84" 1).1.2.2 ≠ "")) ∧
    (((sent_stream_index demo_http_fail "192.168.1.84" 1).1.1 = true ∧
        (sent_stream_index demo_http_fail "192.168.1.84" 1).1.2 = "") ∨
      ((sent_stream_index demo_http_fail "192.168.1.84" 1).1.1 = false ∧
        (sent_stream_index demo_http_fail "192.168.1.84" 1).1.2 ≠ "")) :=
  helpers_return_message_tuples demo_http_idle demo_http_fail "192.168.1.84" 1

/-- The decode worker's result depends only on the payloads of the queued
tuples: replacing the frame-type tags while keeping the raw data leaves the
final codec state and the emitted image sequence unchanged, for every
abstract codec. -/
lemma decode_run_payloads {σ π ι : Type} (parse : σ → Bytes → σ × List π)
    (decode : σ → π → σ × List ι) :
    ∀ (items1 items2 : List (String × Bytes)) (cs : σ),
      items1.map Prod.snd = items2.map Prod.snd →
      decode_run parse decode cs items1 = decode_run parse decode cs items2 := by
  intro items1
  induction items1 with
  | nil =>
    intro items2 cs h
    cases items2 with
    | nil => rfl
    | cons b t2 => simp at h
  | cons a t1 ih =>
    intro items2 cs h
    cases items2 with
    | nil => simp at h
    | cons b t2 =>
      simp at h
      obtain ⟨hab, ht⟩ := h
      have hstep : decode_step parse decode cs a
          = decode_step parse decode cs b := by
        simp [decode_step, hab]
      have hrun : ∀ cs' : σ, decode_run parse decode cs' t1
          = decode_run parse decode cs' t2 := fun cs' => ih t2 cs' ht
      simp only [decode_run, hstep, hrun]

/-- A decoder mid-run, for the C10 witness. -/
def demo_decoder : DecodeH26x :=
  { codec := some CodecKind.h264, running := true, stop_event := false,
    maxsize := 30, frame_queue := [] }

/-- A toy packet parser instantiating the abstract codec for the C10
witness. -/
def demo_parse (cs : Nat) (b : Bytes) : Nat × List Nat := (cs + 1, [b.length])

/-- A toy per-packet decoder instantiating the abstract codec for the C10
witness. -/
def demo_decode (cs : Nat) (p : Nat) : Nat × List Nat := (cs, [p + cs])

/-- Claim C10: the keyframe/deltaframe tag is dead data downstream of
`push_frame` — the decode worker unpacks it but never reads it, so for any
abstract codec and any two queued sequences with identical payloads the
decoded-image sequence and final codec state agree; the payload queued by
`push_frame` is tag-independent, and the Dumph26x writer's submission
extracted by `on_h264_data` is the raw payload alone, independent of the
tag. -/
theorem decode_ignores_frame_type {σ π ι : Type}
    (parse : σ → Bytes → σ × List π) (decode : σ → π → σ × List ι)
    (cs : σ) (items1 items2 : List (String × Bytes))
    (h : items1.map Prod.snd = items2.map Prod.snd)
    (dr hp : Bool) (d1 d2 : H26xData) (hd : d1.data = d2.data)
    (ds : DecodeH26x) (ta tb : String) (pd : Bytes) :
    decode_run parse decode cs items1 = decode_run parse decode cs items2 ∧
    (on_h264_data dr hp d1).1 = (on_h264_data dr hp d2).1 ∧
    (DecodeH26x.push_frame ds ta pd).frame_queue.map Prod.snd
      = (DecodeH26x.push_frame ds tb pd).frame_queue.map Prod.snd := by
  refine ⟨decode_run_payloads parse decode items1 items2 cs h, ?_, ?_⟩
  · simp [on_h264_data, hd]
  · by_cases hr : ds.running
    · by_cases hc : ds.maxsize = 0 ∨ ds.frame_queue.length < ds.maxsize
      · simp [DecodeH26x.push_frame, queuePut, hr, hc]
      · simp [DecodeH26x.push_frame, queuePut, hr, hc]
    · simp [DecodeH26x.push_frame, hr]

/-- Witness for C10: two queued sequences and two frame records differing
only in their tags give identical decode output, identical writer
submissions and tag-independent queued payloads. -/
theorem decode_ignores_frame_type_witness :
    decode_run demo_parse demo_decode 0 [("I", [0, 0, 1]), ("P", [0, 1])]
      = decode_run demo_parse demo_decode 0
          [("P", [0, 0, 1]), ("I", [0, 1])] ∧
    (on_h264_data true true
        { frm_no := 1, pts := 0, frame_type := "I", len := 3,
          data := [0, 0, 1], ntp_timestamp := 0 }).1
      = (on_h264_data true true
        { frm_no := 1, pts := 0, frame_type := "P", len := 3,
          data := [0, 0, 1], ntp_timestamp := 0 }).1 ∧
    (DecodeH26x.push_frame demo_decoder "I" [0, 0, 1]).frame_queue.map
        Prod.snd
      = (DecodeH26x.push_frame demo_decoder "P" [0, 0, 1]).frame_queue.map
          Prod.snd :=
  decode_ignores_frame_type demo_parse demo_decode 0
    [("I", [0, 0, 1]), ("P", [0, 1])] [("P", [0, 0, 1]), ("I", [0, 1])]
    (by decide) true true
    { frm_no := 1, pts := 0, frame_type := "I", len := 3, data := [0, 0, 1],
      ntp_timestamp := 0 }
    { frm_no := 1, pts := 0, frame_type := "P", len := 3, data := [0, 0, 1],
      ntp_timestamp := 0 }
    (by decide) demo_decoder "I" "P" [0, 0, 1]
